import Mathlib

/-!
Shallow embedding of the browser-automation session subsystem of the
auto-post-api repository (src/src/services/substackService.js, the
persistent session store module, and the Substack API routes).

Browser interactions (Selenium WebDriver calls) are abstracted: a browser
handle is an opaque `Nat` drawn from a counter, page observations (URLs,
matching selectors, button texts) are supplied as oracle parameters, and
driver construction never fails.  Time is an explicit clock value carried
in the state.  Everything else — registry and store bookkeeping, status
checks, validation, selector lists, cookie-expiry arithmetic, cleanup
sweeps — is translated directly from the JavaScript source.
-/

set_option linter.unusedVariables false
set_option maxRecDepth 4000

namespace AutoPost

/-- JavaScript `haystack.includes(needle)` on strings, needle-first on the
character lists. -/
def includesAux (needle : List Char) : List Char → Bool
  | [] => needle.isEmpty
  | c :: t => needle.isPrefixOf (c :: t) || includesAux needle t

/-- `s.includes(sub)` from JavaScript. -/
def strIncludes (s sub : String) : Bool :=
  includesAux sub.data s.data

/-- Digit character for `Number.prototype.toString(36)`: 0-9 then a-z. -/
def base36Char (d : Nat) : Char :=
  if d < 10 then Char.ofNat (48 + d) else Char.ofNat (87 + d)

/-- Recursive digit accumulation of `n.toString(36)`.  The recursion is
on an explicit fuel so that it is structural (the value at fuel `0` is
only reached with `n = 0`, where it agrees: the digit `0`); dividing by
36 each step, `n` itself is always sufficient fuel. -/
def toBase36Go (fuel : Nat) (n : Nat) (acc : List Char) : List Char :=
  match fuel with
  | 0 => base36Char (n % 36) :: acc
  | fuel + 1 =>
    if n < 36 then base36Char n :: acc
    else toBase36Go fuel (n / 36) (base36Char (n % 36) :: acc)

/-- `Date.now().toString(36)` — base-36 rendering of a natural number. -/
def toBase36 (n : Nat) : String :=
  ⟨toBase36Go n n []⟩

/-- `generateSessionId` (substackService.js:2751): the fractional base-36
digits of `Math.random()` (the random draw, abstracted as the already
rendered string) concatenated with `Date.now().toString(36)`. -/
def generateSessionId (randPart : String) (nowMs : Nat) : String :=
  randPart ++ toBase36 nowMs

/-- Cookie entry of `userData.authTokens.cookies`: either the old format
(a plain string value) or the new format (an object with metadata).  A
numeric `expiry` field may be absent (`none`); a present value of `0` is
falsy in JavaScript, which matters for the restore logic. -/
inductive CookieData where
  | str (value : String)
  | obj (value : String) (domain : Option String) (path : Option String)
        (secure : Option Bool) (httpOnly : Option Bool) (sameSite : Option String)
        (expiry : Option Int)
deriving DecidableEq

/-- `authTokens` bundle extracted by `extractAuthTokens`. -/
structure AuthTokens where
  cookies : List (String × CookieData)
  localStorageItems : List (String × String)
  domain : String
  extractedAt : Int
deriving DecidableEq

/-- `userData` record built by `getUserData`. -/
structure UserData where
  email : Option String
  name : Option String
  profileUrl : Option String
  subdomain : Option String
  isLoggedIn : Bool
  loginTime : Int
  authTokens : Option AuthTokens
deriving DecidableEq

/-- An entry of the in-memory `activeSessions` map: the live record with
the WebDriver handle (the handle is a `Nat` drawn from a counter). -/
structure ActiveSession where
  id : String
  driver : Nat
  createdAt : Int
  status : String
  email : Option String := none
  userData : Option UserData := none
  authTokens : Option AuthTokens := none
deriving DecidableEq

/-- The snapshot written by `SessionStore.saveSession` (sessionStore
module, lines 70-79): exactly id, status, email, createdAt, lastActiveAt,
userData and authTokens — never the WebDriver handle. -/
structure StoredSession where
  id : String
  status : String
  email : Option String
  createdAt : Int
  lastActiveAt : Int
  userData : Option UserData
  authTokens : Option AuthTokens
deriving DecidableEq

/-- Association-list lookup, modelling `Map.get` / JS object indexing. -/
def alGet {α : Type} (l : List (String × α)) (k : String) : Option α :=
  match l with
  | [] => none
  | (k', v) :: t => if k' = k then some v else alGet t k

/-- `Map.set` / object-key assignment: replace in place, or append. -/
def alSet {α : Type} (l : List (String × α)) (k : String) (v : α) :
    List (String × α) :=
  match l with
  | [] => [(k, v)]
  | (k', v') :: t => if k' = k then (k, v) :: t else (k', v') :: alSet t k v

/-- `Map.delete` / the `delete` operator: removes the key (a no-op when
the key is absent, exactly as in JavaScript). -/
def alDel {α : Type} (l : List (String × α)) (k : String) :
    List (String × α) :=
  match l with
  | [] => []
  | (k', v) :: t => if k' = k then alDel t k else (k', v) :: alDel t k

/-- Whole service state: the in-memory registry, the persisted store
(contents of sessions.json), the browser-handle counter and the clock. -/
structure ServiceState where
  active : List (String × ActiveSession)
  store : List (String × StoredSession)
  nextDriver : Nat
  now : Int
deriving DecidableEq

/-- `SessionStore.saveSession` at the structural level: a whole-map
read-modify-write that stores the metadata snapshot (never the driver)
and stamps `lastActiveAt` with the current time. -/
def storeSaveSession (store : List (String × StoredSession)) (now : Int)
    (sessionId : String) (s : ActiveSession) : List (String × StoredSession) :=
  alSet store sessionId
    { id := sessionId
      status := s.status
      email := s.email
      createdAt := s.createdAt
      lastActiveAt := now
      userData := s.userData
      authTokens := s.authTokens }

/-- `SessionStore.updateLastActive`: refreshes `lastActiveAt` when the
session exists, otherwise leaves the store unchanged. -/
def storeUpdateLastActive (store : List (String × StoredSession)) (now : Int)
    (sessionId : String) : List (String × StoredSession) :=
  match alGet store sessionId with
  | none => store
  | some s => alSet store sessionId { s with lastActiveAt := now }

/-- `SessionStore.deleteSession`. -/
def storeDeleteSession (store : List (String × StoredSession))
    (sessionId : String) : List (String × StoredSession) :=
  alDel store sessionId

/-- `SessionStore.cleanupExpiredSessions` (sessionStore module, lines
116-135): deletes every record strictly older than `maxAgeMs` and
returns the number removed together with the surviving map. -/
def storeCleanupExpiredSessions (store : List (String × StoredSession))
    (now : Int) (maxAgeMs : Int) :
    Nat × List (String × StoredSession) :=
  let surviving := store.filter (fun p => ¬(now - p.2.createdAt > maxAgeMs))
  (store.length - surviving.length, surviving)

/-- Result of `createSession`. -/
structure CreateResult where
  sessionId : String
  success : Bool
deriving DecidableEq

/-- `createSession` (substackService.js:1696-1740): builds a fresh browser
(handle drawn from the counter; construction is abstracted as always
succeeding), generates the id from the random draw and the clock,
registers the record in `activeSessions` and saves the snapshot to the
store.  There is no check that the generated id is fresh: `Map.set`
silently replaces an existing entry with the same key. -/
def createSession (st : ServiceState) (randPart : String) :
    CreateResult × ServiceState :=
  let driver := st.nextDriver
  let sessionId := generateSessionId randPart st.now.toNat
  let session : ActiveSession :=
    { id := sessionId, driver, createdAt := st.now, status := "created" }
  let st1 : ServiceState :=
    { st with
      active := alSet st.active sessionId session
      nextDriver := st.nextDriver + 1 }
  let st2 : ServiceState :=
    { st1 with store := storeSaveSession st1.store st1.now sessionId session }
  ({ sessionId, success := true }, st2)

/-- The `sessionData` summary attached to a successful rebuild. -/
structure SessionDataSummary where
  sessionId : String
  status : String
  email : Option String
  createdAt : Int
deriving DecidableEq

/-- Result of `recreateWebDriverSession` (no `sessionData` on the
already-active early return). -/
structure RecreateResult where
  success : Bool
  message : String
  recreated : Bool
  sessionData : Option SessionDataSummary := none
deriving DecidableEq

/-- Result of `reconnectSession` (no `sessionData` on the
already-active early return). -/
structure ReconnectResult where
  success : Bool
  message : String
  reconnected : Bool
  sessionData : Option SessionDataSummary := none
deriving DecidableEq

/-- `recreateWebDriverSession` (substackService.js:2912-2980): early
return with `recreated: false` when a live handle already exists,
otherwise a fresh browser is registered under the persisted metadata and
`lastActiveAt` is refreshed.  Thrown errors are the wrapped messages of
the catch block. -/
def recreateWebDriverSession (st : ServiceState) (sessionId : String) :
    Except String RecreateResult × ServiceState :=
  match alGet st.active sessionId with
  | some _ =>
    (.ok { success := true, message := "Session already active", recreated := false }, st)
  | none =>
    match alGet st.store sessionId with
    | none =>
      (.error "Failed to recreate WebDriver session: Persistent session not found", st)
    | some p =>
      let driver := st.nextDriver
      let recreated : ActiveSession :=
        { id := sessionId, driver, createdAt := p.createdAt, status := p.status
          email := p.email, userData := p.userData }
      let st' : ServiceState :=
        { st with
          active := alSet st.active sessionId recreated
          nextDriver := st.nextDriver + 1
          store := storeUpdateLastActive st.store st.now sessionId }
      (.ok { success := true, message := "WebDriver session recreated successfully"
             recreated := true
             sessionData := some { sessionId, status := p.status, email := p.email
                                   createdAt := p.createdAt } }, st')

/-- `reconnectSession` (substackService.js:2982-3182): early return with
`reconnected: false` when a live handle already exists; requires the
persisted status to be `logged_in`; otherwise builds a fresh browser,
restores cookies and localStorage into it (browser-side effects, not part
of this state; the expiry arithmetic is modelled separately by
`buildCookieObj`), registers the handle and refreshes `lastActiveAt`.
A failed authentication verification does not abort the call. -/
def reconnectSession (st : ServiceState) (sessionId : String) :
    Except String ReconnectResult × ServiceState :=
  match alGet st.active sessionId with
  | some _ =>
    (.ok { success := true, message := "Session already active", reconnected := false }, st)
  | none =>
    match alGet st.store sessionId with
    | none =>
      (.error "Failed to reconnect session: Persistent session not found", st)
    | some p =>
      if p.status ≠ "logged_in" then
        (.error ("Failed to reconnect session: Cannot reconnect session with status: "
                 ++ p.status), st)
      else
        let driver := st.nextDriver
        let reconnected : ActiveSession :=
          { id := sessionId, driver, createdAt := p.createdAt, status := p.status
            email := p.email, userData := p.userData }
        let st' : ServiceState :=
          { st with
            active := alSet st.active sessionId reconnected
            nextDriver := st.nextDriver + 1
            store := storeUpdateLastActive st.store st.now sessionId }
        (.ok { success := true, message := "Session reconnected successfully"
               reconnected := true
               sessionData := some { sessionId, status := p.status, email := p.email
                                     createdAt := p.createdAt } }, st')

/-- The automatic lookup prologue shared by `initiateLogin`,
`submitVerificationCode`, `waitForEmailVerification` and `createPost`:
when the id is not live but persisted, reconnect (status `logged_in`) or
recreate (any other status) before proceeding. -/
def resolveSession (st : ServiceState) (sessionId : String) : ServiceState :=
  match alGet st.active sessionId with
  | some _ => st
  | none =>
    match alGet st.store sessionId with
    | none => st
    | some p =>
      if p.status = "logged_in" then (reconnectSession st sessionId).2
      else (recreateWebDriverSession st sessionId).2

/-- Oracle for the browser interactions of `submitVerificationCode` after
the status check: the code input may be missing, the post-submit URL wait
may time out, or login completes and user data is extracted. -/
inductive VerifyOutcome where
  | codeInputMissing
  | navTimeout (msg : String)
  | loginCompleted (userData : UserData)
deriving DecidableEq

/-- Result of a successful `submitVerificationCode`. -/
structure VerifySuccess where
  success : Bool
  status : String
  userData : UserData
deriving DecidableEq

/-- `submitVerificationCode` (substackService.js:1934-2155): resolve the
session (reconnect/recreate), fail when no session can be resolved, fail
with the invalid-state error when the resolved status is not
`awaiting_verification`, and only then touch the browser.  Errors carry
the catch block's `Verification failed: ` wrapping. -/
def submitVerificationCode (st : ServiceState) (sessionId code : String)
    (browser : VerifyOutcome) : Except String VerifySuccess × ServiceState :=
  let st1 := resolveSession st sessionId
  match alGet st1.active sessionId with
  | none =>
    (.error "Verification failed: Session not found and could not be reconnected", st1)
  | some s =>
    if s.status ≠ "awaiting_verification" then
      (.error ("Verification failed: Invalid session status: " ++ s.status), st1)
    else
      match browser with
      | .codeInputMissing =>
        (.error "Verification failed: Could not find verification code input field. Page may not be ready or structure changed.", st1)
      | .navTimeout msg => (.error ("Verification failed: " ++ msg), st1)
      | .loginCompleted userData =>
        let s2 := { s with status := "logged_in", userData := some userData }
        let st2 := { st1 with active := alSet st1.active sessionId s2 }
        let st3 := { st2 with store := storeSaveSession st2.store st2.now sessionId s2 }
        (.ok { success := true, status := "logged_in", userData }, st3)

/-- URL check of the `waitForEmailVerification` polling loop
(substackService.js:2854-2859). -/
def urlIndicatesLoggedIn (url : String) : Bool :=
  strIncludes url "substack.com" && !strIncludes url "sign-in" &&
    !strIncludes url "verify" && !strIncludes url "login"

/-- The polling loop: poll index `k` against the URL observations, with
`fuel` iterations remaining; returns the first index whose URL indicates
a completed login. -/
def waitPollGo (urls : Nat → String) (k : Nat) : Nat → Option Nat
  | 0 => none
  | fuel + 1 =>
    if urlIndicatesLoggedIn (urls k) then some k else waitPollGo urls (k + 1) fuel

/-- Number of iterations of the loop `while (Date.now() - startTime <
timeoutMs)` when each iteration advances the clock by the 3000 ms sleep:
all `k` with `3000 * k < timeoutMs`. -/
def numPolls (timeoutMs : Int) : Nat :=
  ((timeoutMs + 2999) / 3000).toNat

/-- Result record of `waitForEmailVerification`. -/
structure WaitVerifyResult where
  success : Bool
  status : String
  userData : Option UserData
  currentUrl : String
deriving DecidableEq

/-- `waitForEmailVerification` (substackService.js:2808-2905): resolve
the session, then poll the current URL every 3 seconds until it indicates
an authenticated page or the deadline elapses.  On success the registry
status becomes `logged_in` (the store is not written on this path); on
deadline expiry a non-thrown result with `success: false` and status
`verification_timeout` is returned and no session state is touched.
Transient per-poll errors are swallowed by the source and are abstracted
away (the URL oracle always answers). -/
def waitForEmailVerification (st : ServiceState) (sessionId : String)
    (timeoutMs : Int) (urls : Nat → String) (userDataAt : Nat → UserData) :
    Except String WaitVerifyResult × ServiceState :=
  let st1 := resolveSession st sessionId
  match alGet st1.active sessionId with
  | none =>
    (.error "Email verification wait failed: Session not found and could not be reconnected", st1)
  | some s =>
    match waitPollGo urls 0 (numPolls timeoutMs) with
    | some k =>
      let s2 := { s with status := "logged_in" }
      let st2 := { st1 with active := alSet st1.active sessionId s2 }
      (.ok { success := true, status := "logged_in", userData := some (userDataAt k)
             currentUrl := urls k }, st2)
    | none =>
      (.ok { success := false, status := "verification_timeout", userData := none
             currentUrl := urls (numPolls timeoutMs) }, st1)

/-- `closeSession` (substackService.js:2650-2678): quit the driver if
live (quit errors are caught), remove the registry entry (`Map.delete`
of a missing key is a no-op), delete the persisted record unless
`keepPersistent`, and return `true`.  The store module catches its own
filesystem errors, so no path of the translated body can fail: the
function returns `true` for every input, a missing session included. -/
def closeSession (st : ServiceState) (sessionId : String)
    (keepPersistent : Bool) : Bool × ServiceState :=
  let st1 : ServiceState := { st with active := alDel st.active sessionId }
  let st2 : ServiceState :=
    if keepPersistent then st1
    else { st1 with store := storeDeleteSession st1.store sessionId }
  (true, st2)

/-- One iteration of the registry sweep of `cleanupOldSessions`
(substackService.js:2693-2702). -/
def cleanupStep (maxAge maxPersistentAge : Int)
    (acc : Nat × ServiceState) (e : String × ActiveSession) : Nat × ServiceState :=
  let sessionAge := acc.2.now - e.2.createdAt
  if sessionAge > maxAge then
    let keepPersistent := decide (sessionAge < maxPersistentAge)
    (acc.1 + 1, (closeSession acc.2 e.1 keepPersistent).2)
  else acc

/-- `cleanupOldSessions` (substackService.js:2685-2716): close every live
session strictly older than `maxAge` (keeping its persisted record only
when still under `maxPersistentAge`), then sweep the store for records
strictly older than `maxPersistentAge`; returns the pair of counts. -/
def cleanupOldSessions (st : ServiceState) (maxAge maxPersistentAge : Int) :
    (Nat × Nat) × ServiceState :=
  let afterActive := st.active.foldl (cleanupStep maxAge maxPersistentAge) (0, st)
  let swept := storeCleanupExpiredSessions afterActive.2.store afterActive.2.now maxPersistentAge
  ((afterActive.1, swept.1), { afterActive.2 with store := swept.2 })

/-- `DELETE /api/substack/session/:sessionId` (substackApi routes,
lines 232-253): calls `closeSession(sessionId)` with the default
`keepPersistent = false` and maps a falsy return to a 404 response. -/
def deleteSessionRoute (st : ServiceState) (sessionId : String) :
    Nat × ServiceState :=
  let r := closeSession st sessionId false
  (if r.1 then 200 else 404, r.2)

/-- JavaScript truthiness of an optional string value (`undefined`,
`null` and the empty string are falsy). -/
def jsTruthy (s : Option String) : Bool :=
  match s with
  | none => false
  | some v => v ≠ ""

/-- Body of `POST /api/substack/post` as destructured by the route. -/
structure PostRequestBody where
  sessionId : Option String
  title : Option String
  content : Option String
  subtitle : Option String
  isDraft : Bool
deriving DecidableEq

/-- The `postData` record handed to `substackService.createPost`. -/
structure PostData where
  title : String
  content : String
  subtitle : String
  isDraft : Bool
deriving DecidableEq

/-- Outcome of the request boundary: either an early response with an
HTTP status code (no service call), or the publish pipeline invoked with
the validated data. -/
inductive PostRouteOutcome where
  | rejected (statusCode : Nat) (message : String)
  | pipelineInvoked (postData : PostData)
deriving DecidableEq

/-- Validation of `POST /api/substack/post` (substackApi routes, lines
343-394): required-field checks, then the 200-character title bound and
the 100,000-character content bound, all before `createPost` is called. -/
def validateCreatePostRequest (body : PostRequestBody) : PostRouteOutcome :=
  if !jsTruthy body.sessionId then
    .rejected 400 "Session ID is required"
  else if !jsTruthy body.title || !jsTruthy body.content then
    .rejected 400 "Title and content are required"
  else
    let title := body.title.getD ""
    let content := body.content.getD ""
    if title.length > 200 then
      .rejected 400 "Title too long (max 200 characters)"
    else if content.length > 100000 then
      .rejected 400 "Content too long (max 100,000 characters)"
    else
      .pipelineInvoked
        { title := title.trim
          content := content.trim
          subtitle :=
            match body.subtitle with
            | some s => if s ≠ "" then s.trim else ""
            | none => ""
          isDraft := body.isDraft }

/-- The cookie object passed to `driver.manage().addCookie` during
reconnection. -/
structure RestoredCookie where
  name : String
  value : String
  domain : String
  path : String
  secure : Option Bool
  httpOnly : Option Bool
  sameSite : Option String
  expiry : Option Int
deriving DecidableEq

/-- `typeof cookieData === "string" ? cookieData : cookieData.value`. -/
def cookieDataValue : CookieData → String
  | .str v => v
  | .obj v _ _ _ _ _ _ => v

/-- The `cookieDomain` default (substackService.js:3042-3045): the
object's `domain` when truthy, else `".substack.com"`. -/
def cookieDataDomain : CookieData → String
  | .str _ => ".substack.com"
  | .obj _ d _ _ _ _ _ =>
    match d with
    | some dv => if dv ≠ "" then dv else ".substack.com"
    | none => ".substack.com"

/-- The `cookiePath` default (substackService.js:3046-3049). -/
def cookieDataPath : CookieData → String
  | .str _ => "/"
  | .obj _ _ p _ _ _ _ =>
    match p with
    | some pv => if pv ≠ "" then pv else "/"
    | none => "/"

/-- Domain variants tried in order for each cookie
(substackService.js:3052). -/
def cookieDomainVariants (cd : CookieData) : List String :=
  [cookieDataDomain cd, ".substack.com", "substack.com"]

/-- The cookie object built for one domain attempt
(substackService.js:3057-3085): base fields plus, for the object format,
the optional metadata and the expiry-extension rule — `if
(cookieData.expiry)` only fires for a truthy (nonzero) expiry, and an
expiry under 24 hours away is replaced by now + 30 days. -/
def buildCookieObj (now : Int) (name : String) (cd : CookieData)
    (domain : String) : RestoredCookie :=
  match cd with
  | .str v =>
    { name, value := v, domain, path := cookieDataPath cd
      secure := none, httpOnly := none, sameSite := none, expiry := none }
  | .obj v _ _ sec ho ss expiry =>
    { name, value := v, domain, path := cookieDataPath cd
      secure := sec, httpOnly := ho, sameSite := ss
      expiry :=
        match expiry with
        | none => none
        | some e =>
          if e ≠ 0 then
            if e < now + 86400 then some (now + 30 * 24 * 60 * 60) else some e
          else none }

/-- The terminal-action selector cascade of `createPost`
(substackService.js:3995-4017), chosen by `isDraft`. -/
def buttonSelectors (isDraft : Bool) : List String :=
  if isDraft then
    ["button[data-testid=\"save-draft\"]",
     "button:contains(\"Save draft\")",
     ".save-draft-button",
     "//button[contains(text(), \"Save as draft\")]"]
  else
    ["//button[normalize-space(text())=\"Send to everyone now\"]",
     "//button[contains(text(), \"Send to everyone now\")]",
     "//button[text()=\"Send to everyone now\"]",
     "button[type=\"submit\"]",
     "//button[normalize-space(text())=\"Publish now\"]",
     "//button[contains(text(), \"Publish now\")]",
     "button[data-testid=\"publish\"]",
     "button:contains(\"Publish\")",
     ".publish-button",
     "button[class*=\"primary\"]",
     "button[class*=\"orange\"]",
     "button[class*=\"submit\"]"]

/-- Text predicate of the all-buttons fallback scan
(substackService.js:4059-4067). -/
def fallbackButtonMatches (isDraft : Bool) (text : String) : Bool :=
  let t := text.toLower
  (isDraft && (strIncludes t "save" || strIncludes t "draft")) ||
  (!isDraft && (strIncludes t "send to everyone now" || strIncludes t "publish" ||
                strIncludes t "continue"))

/-- Which control the terminal phase clicks: a selector from the cascade
(the page oracle says which selectors match) or a scanned button by
index. -/
inductive ActionButton where
  | fromSelector (selector : String)
  | fromScan (index : Nat)
deriving DecidableEq

/-- Location of the terminal action button: first matching selector of
the `isDraft`-chosen cascade, else the first button whose text satisfies
the fallback predicate. -/
def findActionButton (isDraft : Bool) (selectorMatches : String → Bool)
    (buttonTexts : List String) : Option ActionButton :=
  match (buttonSelectors isDraft).find? selectorMatches with
  | some sel => some (.fromSelector sel)
  | none =>
    match buttonTexts.findIdx? (fallbackButtonMatches isDraft) with
    | some i => some (.fromScan i)
    | none => none

/-- Result record of `createPost` (substackService.js:4230-4240). -/
structure PostResult where
  success : Bool
  title : String
  subtitle : String
  contentPreview : String
  isDraft : Bool
  postUrl : Option String
  currentUrl : String
deriving DecidableEq

/-- Observable trace of the terminal phase: its outcome, whether the
`if (!isDraft)` subscribe-buttons popup branch ran, and the selector
cascade that was consulted. -/
structure FinalizeTrace where
  result : Except String PostResult
  subscribePopupChecked : Bool
  selectorsTried : List String

/-- `content.substring(0, 100) + (content.length > 100 ? "..." : "")`. -/
def contentPreviewOf (content : String) : String :=
  String.mk (content.data.take 100) ++ (if content.length > 100 then "..." else "")

/-- The post-URL parse (substackService.js:4217-4228): the final URL when
it contains `/p/` or `/post/`, else a best-effort page link. -/
def parsePostUrl (finalUrl : String) (pageLink : Option String) : Option String :=
  if strIncludes finalUrl "/p/" || strIncludes finalUrl "/post/" then some finalUrl
  else pageLink

/-- Terminal phase of `createPost` (substackService.js:3994-4245): locate
the action button via the `isDraft`-chosen cascade (falling back to the
button scan), throw the fatal error when nothing matches, click it
(scroll/JS-click fallbacks abstracted), run the subscribe-buttons popup
handling only when `!isDraft`, and build the success record. -/
def finalizePost (isDraft : Bool) (title subtitle content : String)
    (selectorMatches : String → Bool) (buttonTexts : List String)
    (finalUrl : String) (pageLink : Option String) : FinalizeTrace :=
  match findActionButton isDraft selectorMatches buttonTexts with
  | none =>
    { result := .error ("Could not find " ++ (if isDraft then "save draft" else "publish")
                        ++ " button")
      subscribePopupChecked := false
      selectorsTried := buttonSelectors isDraft }
  | some _ =>
    { result := .ok
        { success := true
          title
          subtitle
          contentPreview := contentPreviewOf content
          isDraft
          postUrl := parsePostUrl finalUrl pageLink
          currentUrl := finalUrl }
      subscribePopupChecked := !isDraft
      selectorsTried := buttonSelectors isDraft }

/-- A JavaScript value as relevant to the session store: note `undefined`
(dropped by `JSON.stringify`) and `driverHandle` (a live WebDriver
reference, the one thing that must never reach disk). -/
inductive JValue where
  | undefined
  | nullv
  | str (s : String)
  | num (n : Int)
  | boolv (b : Bool)
  | driverHandle (h : Nat)
  | obj (fields : List (String × JValue))

/-- Property access `o.k` on a JS object: `undefined` when absent. -/
def getFieldJs (o : List (String × JValue)) (k : String) : JValue :=
  (alGet o k).getD .undefined

/-- JS truthiness of a `JValue`. -/
def jvTruthy : JValue → Bool
  | .undefined => false
  | .nullv => false
  | .str s => s ≠ ""
  | .num n => n ≠ 0
  | .boolv b => b
  | .driverHandle _ => true
  | .obj _ => true

/-- The `x || null` idiom. -/
def jsOrNull (v : JValue) : JValue :=
  if jvTruthy v then v else .nullv

/-- The object literal written by `SessionStore.saveSession`
(sessionStore module, lines 70-79), at the JS-object level: only the
seven named fields are read off the passed session object; whatever else
it carries (the `driver` included) is never consulted. -/
def storedRecordJs (nowIso : String) (sessionId : String)
    (sessionData : List (String × JValue)) : List (String × JValue) :=
  [("id", .str sessionId),
   ("status", getFieldJs sessionData "status"),
   ("email", jsOrNull (getFieldJs sessionData "email")),
   ("createdAt", getFieldJs sessionData "createdAt"),
   ("lastActiveAt", .str nowIso),
   ("userData", jsOrNull (getFieldJs sessionData "userData")),
   ("authTokens", jsOrNull (getFieldJs sessionData "authTokens"))]

/-- Keys surviving `JSON.stringify` (entries with `undefined` values are
dropped). -/
def serializedFields (record : List (String × JValue)) : List String :=
  (record.filter (fun p => match p.2 with | .undefined => false | _ => true)).map Prod.fst

/-- `SessionStore.saveSession` at the file level (sessionStore module,
lines 66-82): load the whole mapping, replace the one record with the
fresh snapshot, write the whole mapping back. -/
def saveSessionJs (file : List (String × List (String × JValue)))
    (nowIso sessionId : String) (sessionData : List (String × JValue)) :
    List (String × List (String × JValue)) :=
  alSet file sessionId (storedRecordJs nowIso sessionId sessionData)

/-! ## Basic association-list lemmas -/

theorem alGet_alSet_self {α : Type} (l : List (String × α)) (k : String) (v : α) :
    alGet (alSet l k v) k = some v := by
  induction l with
  | nil => simp [alSet, alGet]
  | cons h t ih =>
    obtain ⟨k', v'⟩ := h
    by_cases hk : k' = k <;> simp [alSet, alGet, hk, ih]

theorem alGet_alSet_ne {α : Type} (l : List (String × α)) (k k' : String) (v : α)
    (h : k' ≠ k) : alGet (alSet l k v) k' = alGet l k' := by
  induction l with
  | nil => simp [alSet, alGet, Ne.symm h]
  | cons hd t ih =>
    obtain ⟨k₀, v₀⟩ := hd
    by_cases hk : k₀ = k
    · subst hk
      simp [alSet, alGet, Ne.symm h]
    · simp [alSet, alGet, hk, ih]

theorem alDel_of_get_none {α : Type} (l : List (String × α)) (k : String)
    (h : alGet l k = none) : alDel l k = l := by
  induction l with
  | nil => simp [alDel]
  | cons hd t ih =>
    obtain ⟨k₀, v₀⟩ := hd
    by_cases hk : k₀ = k
    · simp [alGet, hk] at h
    · simp [alGet, hk] at h
      simp [alDel, hk, ih h]

theorem alGet_alDel {α : Type} (l : List (String × α)) (k : String) :
    alGet (alDel l k) k = none := by
  induction l with
  | nil => simp [alDel, alGet]
  | cons hd t ih =>
    obtain ⟨k₀, v₀⟩ := hd
    by_cases hk : k₀ = k
    · simpa [alDel, alGet, hk] using ih
    · simpa [alDel, alGet, hk] using ih

theorem alGet_alDel_ne {α : Type} (l : List (String × α)) (k k' : String)
    (h : k' ≠ k) : alGet (alDel l k) k' = alGet l k' := by
  induction l with
  | nil => simp [alDel, alGet]
  | cons hd t ih =>
    obtain ⟨k₀, v₀⟩ := hd
    by_cases hk : k₀ = k
    · subst hk
      simp [alDel, alGet, Ne.symm h, ih]
    · simp [alDel, alGet, hk, ih]

/-! ## Status projections and preservation through the lookup prologue -/

/-- Status of the persisted record (if any). -/
def storeStatus (store : List (String × StoredSession)) (k : String) :
    Option String :=
  (alGet store k).map (fun s => s.status)

/-- Status of the live registry record (if any). -/
def activeStatus (active : List (String × ActiveSession)) (k : String) :
    Option String :=
  (alGet active k).map (fun s => s.status)

theorem storeStatus_updateLastActive (store : List (String × StoredSession))
    (now : Int) (sessionId k : String) :
    storeStatus (storeUpdateLastActive store now sessionId) k = storeStatus store k := by
  unfold storeUpdateLastActive
  cases hg : alGet store sessionId with
  | none => rfl
  | some s =>
    by_cases hk : k = sessionId
    · subst hk
      simp [storeStatus, alGet_alSet_self, hg]
    · simp [storeStatus, alGet_alSet_ne _ _ _ _ hk]

theorem resolveSession_store_status (st : ServiceState) (sessionId k : String) :
    storeStatus (resolveSession st sessionId).store k = storeStatus st.store k := by
  unfold resolveSession
  cases h1 : alGet st.active sessionId with
  | some a => rfl
  | none =>
    cases h2 : alGet st.store sessionId with
    | none => rfl
    | some p =>
      by_cases hp : p.status = "logged_in" <;>
        simp [reconnectSession, recreateWebDriverSession, h1, h2, hp,
              storeStatus_updateLastActive]

theorem resolveSession_of_active (st : ServiceState) (sessionId : String)
    (a : ActiveSession) (h : alGet st.active sessionId = some a) :
    resolveSession st sessionId = st := by
  unfold resolveSession
  simp [h]

/-! ## Claim C3 — idempotent reconnect/recreate -/

/-- Claim C3: `reconnectSession` and `recreateWebDriverSession` are
idempotent — for every session id that already has a live handle in the
registry, each call returns immediately with `success = true` and
`reconnected = false` (respectively `recreated = false`) and leaves the
whole service state (registry, store and browser-handle counter, hence no
second browser) unchanged. -/
theorem reconnect_recreate_idempotent (st : ServiceState) (sessionId : String)
    (a : ActiveSession) (h : alGet st.active sessionId = some a) :
    reconnectSession st sessionId =
      (.ok { success := true, message := "Session already active", reconnected := false }, st) ∧
    recreateWebDriverSession st sessionId =
      (.ok { success := true, message := "Session already active", recreated := false }, st) := by
  constructor <;> simp [reconnectSession, recreateWebDriverSession, h]

/-- Witness for C3 at a concrete state with one live `logged_in` session. -/
theorem reconnect_recreate_idempotent_witness :
    reconnectSession
        { active := [("s1", { id := "s1", driver := 0, createdAt := 5, status := "logged_in" })]
          store := [], nextDriver := 1, now := 100 } "s1" =
      (.ok { success := true, message := "Session already active", reconnected := false },
       { active := [("s1", { id := "s1", driver := 0, createdAt := 5, status := "logged_in" })]
         store := [], nextDriver := 1, now := 100 }) ∧
    recreateWebDriverSession
        { active := [("s1", { id := "s1", driver := 0, createdAt := 5, status := "logged_in" })]
          store := [], nextDriver := 1, now := 100 } "s1" =
      (.ok { success := true, message := "Session already active", recreated := false },
       { active := [("s1", { id := "s1", driver := 0, createdAt := 5, status := "logged_in" })]
         store := [], nextDriver := 1, now := 100 }) :=
  reconnect_recreate_idempotent _ "s1"
    { id := "s1", driver := 0, createdAt := 5, status := "logged_in" } (by rfl)

/-! ## Claim C10 — closeSession returns true even for missing sessions -/

/-- Claim C10: `closeSession` returns `true` even for a session id that
exists neither in the live registry nor in the persistent store (leaving
the state untouched), and indeed returns `true` on every input in the
embedding (the source catches driver-quit errors and the store module
catches its filesystem errors, so only an unexpected escaping error could
yield `false`); consequently the DELETE route's 404 branch is
unreachable via the return value — the route answers 200. -/
theorem closeSession_missing_returns_true (st : ServiceState) (sessionId : String)
    (hA : alGet st.active sessionId = none) (hS : alGet st.store sessionId = none) :
    (closeSession st sessionId false).1 = true ∧
    (closeSession st sessionId false).2 = st ∧
    (∀ s k b, (closeSession s k b).1 = true) ∧
    (deleteSessionRoute st sessionId).1 = 200 := by
  refine ⟨rfl, ?_, fun s k b => rfl, rfl⟩
  simp [closeSession, storeDeleteSession, alDel_of_get_none _ _ hA,
        alDel_of_get_none _ _ hS]

/-- Witness for C10 at a state whose registry and store know nothing of
the requested id. -/
theorem closeSession_missing_returns_true_witness :
    (closeSession
        { active := [], store := [("other", { id := "other", status := "created"
                                              email := none, createdAt := 0
                                              lastActiveAt := 0, userData := none
                                              authTokens := none })]
          nextDriver := 0, now := 50 } "ghost" false).1 = true ∧
    (closeSession
        { active := [], store := [("other", { id := "other", status := "created"
                                              email := none, createdAt := 0
                                              lastActiveAt := 0, userData := none
                                              authTokens := none })]
          nextDriver := 0, now := 50 } "ghost" false).2 =
      { active := [], store := [("other", { id := "other", status := "created"
                                            email := none, createdAt := 0
                                            lastActiveAt := 0, userData := none
                                            authTokens := none })]
        nextDriver := 0, now := 50 } ∧
    (∀ s k b, (closeSession s k b).1 = true) ∧
    (deleteSessionRoute
        { active := [], store := [("other", { id := "other", status := "created"
                                              email := none, createdAt := 0
                                              lastActiveAt := 0, userData := none
                                              authTokens := none })]
          nextDriver := 0, now := 50 } "ghost").1 = 200 :=
  closeSession_missing_returns_true _ "ghost" (by rfl) (by rfl)

/-! ## Claim C1 — invalid-state error of submitVerificationCode -/

/-- Claim C1: for every session that resolves (after the automatic
reconnect/recreate lookup) to a status other than `awaiting_verification`,
`submitVerificationCode` fails with the invalid-state error
`Invalid session status: ...` (wrapped by the catch block), mutates
nothing beyond that lookup, keeps every persisted status exactly as it
was, and keeps the registry record untouched whenever the session was
already live. -/
theorem submitVerificationCode_invalid_status
    (st : ServiceState) (sessionId code : String) (browser : VerifyOutcome)
    (s : ActiveSession)
    (hs : alGet (resolveSession st sessionId).active sessionId = some s)
    (hneq : s.status ≠ "awaiting_verification") :
    (submitVerificationCode st sessionId code browser).1 =
      .error ("Verification failed: Invalid session status: " ++ s.status) ∧
    (submitVerificationCode st sessionId code browser).2 = resolveSession st sessionId ∧
    (∀ k, storeStatus (submitVerificationCode st sessionId code browser).2.store k =
          storeStatus st.store k) ∧
    (∀ a, alGet st.active sessionId = some a →
          alGet (submitVerificationCode st sessionId code browser).2.active sessionId = some a) := by
  have hmain : submitVerificationCode st sessionId code browser =
      (.error ("Verification failed: Invalid session status: " ++ s.status),
       resolveSession st sessionId) := by
    unfold submitVerificationCode
    simp [hs, hneq]
  refine ⟨by rw [hmain], by rw [hmain], fun k => ?_, fun a ha => ?_⟩
  · rw [hmain]
    exact resolveSession_store_status st sessionId k
  · rw [hmain]
    rw [resolveSession_of_active st sessionId a ha]
    exact ha

/-- Witness for C1: a live `logged_in` session rejects a verification
code with the invalid-state error and no state change. -/
theorem submitVerificationCode_invalid_status_witness :
    (submitVerificationCode
        { active := [("s1", { id := "s1", driver := 3, createdAt := 5, status := "logged_in" })]
          store := [], nextDriver := 4, now := 100 } "s1" "123456"
        (.loginCompleted { email := none, name := none, profileUrl := none
                           subdomain := none, isLoggedIn := true, loginTime := 0
                           authTokens := none })).1 =
      .error ("Verification failed: Invalid session status: " ++ "logged_in") ∧
    (submitVerificationCode
        { active := [("s1", { id := "s1", driver := 3, createdAt := 5, status := "logged_in" })]
          store := [], nextDriver := 4, now := 100 } "s1" "123456"
        (.loginCompleted { email := none, name := none, profileUrl := none
                           subdomain := none, isLoggedIn := true, loginTime := 0
                           authTokens := none })).2 =
      resolveSession
        { active := [("s1", { id := "s1", driver := 3, createdAt := 5, status := "logged_in" })]
          store := [], nextDriver := 4, now := 100 } "s1" ∧
    (∀ k, storeStatus (submitVerificationCode
        { active := [("s1", { id := "s1", driver := 3, createdAt := 5, status := "logged_in" })]
          store := [], nextDriver := 4, now := 100 } "s1" "123456"
        (.loginCompleted { email := none, name := none, profileUrl := none
                           subdomain := none, isLoggedIn := true, loginTime := 0
                           authTokens := none })).2.store k =
          storeStatus ([] : List (String × StoredSession)) k) ∧
    (∀ a, alGet [("s1", { id := "s1", driver := 3, createdAt := 5
                          status := "logged_in" : ActiveSession })] "s1" = some a →
          alGet (submitVerificationCode
        { active := [("s1", { id := "s1", driver := 3, createdAt := 5, status := "logged_in" })]
          store := [], nextDriver := 4, now := 100 } "s1" "123456"
        (.loginCompleted { email := none, name := none, profileUrl := none
                           subdomain := none, isLoggedIn := true, loginTime := 0
                           authTokens := none })).2.active "s1" = some a) :=
  submitVerificationCode_invalid_status _ "s1" "123456" _
    { id := "s1", driver := 3, createdAt := 5, status := "logged_in" }
    (by rfl) (by decide)

/-! ## Claim C4 — verification-wait timeout is non-destructive -/

/-- Claim C4: when `waitForEmailVerification` reaches its polling
deadline (no polled URL ever indicates an authenticated page), it returns
a non-thrown result with `success = false` and status
`verification_timeout`, the state after the call is exactly the state
after the lookup prologue, every persisted status is unchanged, and a
session that was live before the call keeps its registry record
untouched — so retrying the wait or the login is safe. -/
theorem waitForEmailVerification_timeout
    (st : ServiceState) (sessionId : String) (timeoutMs : Int)
    (urls : Nat → String) (userDataAt : Nat → UserData) (s : ActiveSession)
    (hs : alGet (resolveSession st sessionId).active sessionId = some s)
    (hpoll : waitPollGo urls 0 (numPolls timeoutMs) = none) :
    (waitForEmailVerification st sessionId timeoutMs urls userDataAt).1 =
      .ok { success := false, status := "verification_timeout", userData := none
            currentUrl := urls (numPolls timeoutMs) } ∧
    (waitForEmailVerification st sessionId timeoutMs urls userDataAt).2 =
      resolveSession st sessionId ∧
    (∀ k, storeStatus (waitForEmailVerification st sessionId timeoutMs urls userDataAt).2.store k =
          storeStatus st.store k) ∧
    (∀ a, alGet st.active sessionId = some a →
          alGet (waitForEmailVerification st sessionId timeoutMs urls userDataAt).2.active sessionId
            = some a) := by
  have hmain : waitForEmailVerification st sessionId timeoutMs urls userDataAt =
      (.ok { success := false, status := "verification_timeout", userData := none
             currentUrl := urls (numPolls timeoutMs) },
       resolveSession st sessionId) := by
    unfold waitForEmailVerification
    simp [hs, hpoll]
  refine ⟨by rw [hmain], by rw [hmain], fun k => ?_, fun a ha => ?_⟩
  · rw [hmain]
    exact resolveSession_store_status st sessionId k
  · rw [hmain]
    rw [resolveSession_of_active st sessionId a ha]
    exact ha

/-- Witness for C4: a zero deadline on a live `awaiting_verification`
session times out immediately with the session untouched. -/
theorem waitForEmailVerification_timeout_witness :
    (waitForEmailVerification
        { active := [("s1", { id := "s1", driver := 2, createdAt := 5
                              status := "awaiting_verification" })]
          store := [], nextDriver := 3, now := 100 } "s1" 0
        (fun _ => "https://substack.com/sign-in")
        (fun _ => { email := none, name := none, profileUrl := none, subdomain := none
                    isLoggedIn := true, loginTime := 0, authTokens := none })).1 =
      .ok { success := false, status := "verification_timeout", userData := none
            currentUrl := "https://substack.com/sign-in" } ∧
    (waitForEmailVerification
        { active := [("s1", { id := "s1", driver := 2, createdAt := 5
                              status := "awaiting_verification" })]
          store := [], nextDriver := 3, now := 100 } "s1" 0
        (fun _ => "https://substack.com/sign-in")
        (fun _ => { email := none, name := none, profileUrl := none, subdomain := none
                    isLoggedIn := true, loginTime := 0, authTokens := none })).2 =
      resolveSession
        { active := [("s1", { id := "s1", driver := 2, createdAt := 5
                              status := "awaiting_verification" })]
          store := [], nextDriver := 3, now := 100 } "s1" ∧
    (∀ k, storeStatus (waitForEmailVerification
        { active := [("s1", { id := "s1", driver := 2, createdAt := 5
                              status := "awaiting_verification" })]
          store := [], nextDriver := 3, now := 100 } "s1" 0
        (fun _ => "https://substack.com/sign-in")
        (fun _ => { email := none, name := none, profileUrl := none, subdomain := none
                    isLoggedIn := true, loginTime := 0, authTokens := none })).2.store k =
          storeStatus ([] : List (String × StoredSession)) k) ∧
    (∀ a, alGet [("s1", { id := "s1", driver := 2, createdAt := 5
                          status := "awaiting_verification" : ActiveSession })] "s1" = some a →
          alGet (waitForEmailVerification
        { active := [("s1", { id := "s1", driver := 2, createdAt := 5
                              status := "awaiting_verification" })]
          store := [], nextDriver := 3, now := 100 } "s1" 0
        (fun _ => "https://substack.com/sign-in")
        (fun _ => { email := none, name := none, profileUrl := none, subdomain := none
                    isLoggedIn := true, loginTime := 0, authTokens := none })).2.active "s1"
            = some a) :=
  waitForEmailVerification_timeout _ "s1" 0 _ _
    { id := "s1", driver := 2, createdAt := 5, status := "awaiting_verification" }
    (by rfl) (by rfl)

/-! ## Claim C5 — request-boundary length validation of POST /post -/

/-- Claim C5: the request boundary of `POST /api/substack/post` rejects
every body whose title exceeds 200 characters, and every body whose
content exceeds 100,000 characters, with a 400 response before
`createPost` (the publish pipeline) is ever invoked; while any body with
a present session id, a nonempty title of at most 200 characters and a
nonempty content of at most 100,000 characters passes the validation and
reaches the pipeline. -/
theorem createPost_request_validation (body : PostRequestBody) :
    (∀ t, body.title = some t → t.length > 200 →
       ∃ msg, validateCreatePostRequest body = .rejected 400 msg) ∧
    (∀ c, body.content = some c → c.length > 100000 →
       ∃ msg, validateCreatePostRequest body = .rejected 400 msg) ∧
    (∀ sid t c, body.sessionId = some sid → sid ≠ "" →
       body.title = some t → t ≠ "" → t.length ≤ 200 →
       body.content = some c → c ≠ "" → c.length ≤ 100000 →
       validateCreatePostRequest body =
         .pipelineInvoked
           { title := t.trim, content := c.trim
             subtitle := match body.subtitle with
                         | some s => if s ≠ "" then s.trim else ""
                         | none => ""
             isDraft := body.isDraft }) := by
  refine ⟨fun t ht hlen => ?_, fun c hc hlen => ?_, fun sid t c hsid hsid' ht ht' hlen hc hc' hclen => ?_⟩
  · unfold validateCreatePostRequest
    by_cases h1 : jsTruthy body.sessionId
    · by_cases h2 : jsTruthy body.title ∧ jsTruthy body.content
      · have : (body.title.getD "").length > 200 := by
          rw [ht]
          exact hlen
        exact ⟨"Title too long (max 200 characters)", by
          simp [h1, h2.1, h2.2, this]⟩
      · rw [Classical.not_and_iff_or_not_not] at h2
        refine ⟨"Title and content are required", ?_⟩
        rcases h2 with h2 | h2 <;> simp [h1, h2]
    · exact ⟨"Session ID is required", by simp [h1]⟩
  · unfold validateCreatePostRequest
    by_cases h1 : jsTruthy body.sessionId
    · by_cases h2 : jsTruthy body.title ∧ jsTruthy body.content
      · by_cases h3 : (body.title.getD "").length > 200
        · exact ⟨"Title too long (max 200 characters)", by simp [h1, h2.1, h2.2, h3]⟩
        · have : (body.content.getD "").length > 100000 := by
            rw [hc]
            exact hlen
          exact ⟨"Content too long (max 100,000 characters)", by
            simp [h1, h2.1, h2.2, h3, this]⟩
      · rw [Classical.not_and_iff_or_not_not] at h2
        refine ⟨"Title and content are required", ?_⟩
        rcases h2 with h2 | h2 <;> simp [h1, h2]
    · exact ⟨"Session ID is required", by simp [h1]⟩
  · unfold validateCreatePostRequest
    simp [jsTruthy, hsid, hsid', ht, ht', hc, hc',
          Nat.not_lt.mpr hlen, Nat.not_lt.mpr hclen]

/-- Witness for C5: a title of 201 characters is rejected with a 400,
and a well-formed short body reaches the pipeline. -/
theorem createPost_request_validation_witness :
    (∃ msg, validateCreatePostRequest
        { sessionId := some "s1", title := some (String.mk (List.replicate 201 'a'))
          content := some "hello", subtitle := none, isDraft := false } =
      .rejected 400 msg) ∧
    validateCreatePostRequest
        { sessionId := some "s1", title := some "hi", content := some "hello"
          subtitle := none, isDraft := true } =
      .pipelineInvoked { title := "hi".trim, content := "hello".trim, subtitle := ""
                         isDraft := true } :=
  ⟨(createPost_request_validation _).1 (String.mk (List.replicate 201 'a')) rfl (by decide),
   (createPost_request_validation
        { sessionId := some "s1", title := some "hi", content := some "hello"
          subtitle := none, isDraft := true }).2.2 "s1" "hi" "hello" rfl (by decide) rfl
        (by decide) (by decide) rfl (by decide) (by decide)⟩

/-! ## Claim C6 — cookie-expiry extension during reconnection -/

/-- Counterexample to C6 as stated: a persisted cookie whose `expiry`
metadata is present with value `0` (an epoch timestamp certainly less
than 24 hours in the future) is re-added with *no* expiry at all — the
JavaScript guard `if (cookieData.expiry)` treats `0` as falsy — instead
of the claimed `now + 30` days. -/
theorem cookieExpiry_zero_counterexample :
    (buildCookieObj 1700000000 "substack.sid"
        (.obj "v" none none none none none (some 0)) ".substack.com").expiry = none ∧
    (0 : Int) < 1700000000 + 86400 ∧
    (none : Option Int) ≠ some (1700000000 + 30 * 24 * 60 * 60) := by
  refine ⟨rfl, by decide, by decide⟩

/-- Claim C6 (amended): during reconnection, for every restored cookie
carrying *nonzero* expiry metadata, an expiry less than 24 hours
(86400 s) in the future at restore time is replaced by exactly 30 days
from now, and any other expiry is kept unchanged; a present-but-zero
expiry is falsy in JavaScript, so such a cookie is re-added without any
expiry. -/
theorem cookieExpiry_extension (now : Int) (name value dom : String)
    (d p : Option String) (sec ho : Option Bool) (ss : Option String) (e : Int)
    (he : e ≠ 0) :
    (e < now + 86400 →
       (buildCookieObj now name (.obj value d p sec ho ss (some e)) dom).expiry =
         some (now + 30 * 24 * 60 * 60)) ∧
    (¬(e < now + 86400) →
       (buildCookieObj now name (.obj value d p sec ho ss (some e)) dom).expiry = some e) ∧
    (buildCookieObj now name (.obj value d p sec ho ss (some 0)) dom).expiry = none := by
  refine ⟨fun hlt => ?_, fun hge => ?_, ?_⟩
  · simp [buildCookieObj, he, hlt]
  · simp [buildCookieObj, he, hge]
  · simp [buildCookieObj]

/-- Witness for C6 (amended): an expiry 500 s after the epoch with the
clock at 1000 s is pushed out to 1000 + 30 days, and one a year ahead is
kept. -/
theorem cookieExpiry_extension_witness :
    ((500 : Int) < 1000 + 86400 →
       (buildCookieObj 1000 "sid" (.obj "v" none none none none none (some 500))
          ".substack.com").expiry = some (1000 + 30 * 24 * 60 * 60)) ∧
    (¬((500 : Int) < 1000 + 86400) →
       (buildCookieObj 1000 "sid" (.obj "v" none none none none none (some 500))
          ".substack.com").expiry = some 500) ∧
    (buildCookieObj 1000 "sid" (.obj "v" none none none none none (some 0))
       ".substack.com").expiry = none :=
  cookieExpiry_extension 1000 "sid" "v" ".substack.com" none none none none none 500
    (by decide)

/-! ## Claim C7 — the draft path never touches the publish controls -/

/-- Claim C7: a `createPost` terminal phase with `isDraft = true` that
completes successfully yields a result with `success = true` and
`isDraft = true`; the subscribe-buttons popup branch (guarded by
`!isDraft`) is never entered, the consulted selector cascade is exactly
the save-draft set, and none of its selectors is one of the publish-path
selectors or mentions the "Send to everyone now" / "Publish now"
controls. -/
theorem createPost_draft_path (title subtitle content : String)
    (selectorMatches : String → Bool) (buttonTexts : List String)
    (finalUrl : String) (pageLink : Option String) (b : ActionButton)
    (hfound : findActionButton true selectorMatches buttonTexts = some b) :
    (finalizePost true title subtitle content selectorMatches buttonTexts finalUrl pageLink).result
      = .ok { success := true, title, subtitle
              contentPreview := contentPreviewOf content, isDraft := true
              postUrl := parsePostUrl finalUrl pageLink, currentUrl := finalUrl } ∧
    (finalizePost true title subtitle content selectorMatches buttonTexts finalUrl
       pageLink).subscribePopupChecked = false ∧
    (finalizePost true title subtitle content selectorMatches buttonTexts finalUrl
       pageLink).selectorsTried = buttonSelectors true ∧
    (∀ sel ∈ buttonSelectors true, sel ∉ buttonSelectors false) ∧
    (∀ sel ∈ buttonSelectors true,
       strIncludes sel "Send to everyone now" = false ∧
       strIncludes sel "Publish now" = false) := by
  refine ⟨?_, ?_, ?_, by decide, by decide⟩ <;> simp [finalizePost, hfound]

/-- Witness for C7: a page matching only the save-draft test id. -/
theorem createPost_draft_path_witness :
    (finalizePost true "T" "S" "C"
        (fun sel => sel = "button[data-testid=\"save-draft\"]") [] "https://x.substack.com/publish"
        none).result
      = .ok { success := true, title := "T", subtitle := "S"
              contentPreview := contentPreviewOf "C", isDraft := true
              postUrl := parsePostUrl "https://x.substack.com/publish" none
              currentUrl := "https://x.substack.com/publish" } ∧
    (finalizePost true "T" "S" "C"
        (fun sel => sel = "button[data-testid=\"save-draft\"]") [] "https://x.substack.com/publish"
        none).subscribePopupChecked = false ∧
    (finalizePost true "T" "S" "C"
        (fun sel => sel = "button[data-testid=\"save-draft\"]") [] "https://x.substack.com/publish"
        none).selectorsTried = buttonSelectors true ∧
    (∀ sel ∈ buttonSelectors true, sel ∉ buttonSelectors false) ∧
    (∀ sel ∈ buttonSelectors true,
       strIncludes sel "Send to everyone now" = false ∧
       strIncludes sel "Publish now" = false) :=
  createPost_draft_path "T" "S" "C" _ [] "https://x.substack.com/publish" none
    (.fromSelector "button[data-testid=\"save-draft\"]") (by decide)

/-! ## Claim C9 — the store writes a driver-free snapshot by whole-file RMW -/

/-- Claim C9: every save to the persistent store writes a record whose
fields are exactly id, status, email, createdAt, lastActiveAt, userData
and authTokens (whatever survives serialization is drawn from these),
never a `driver` field; the record is completely independent of any
`driver` property the passed session object carries; and the save is a
whole-file read-modify-write of the single mapping — every other
session's record is preserved verbatim and this session's entry becomes
the fresh snapshot. -/
theorem saveSession_driver_free_snapshot
    (file : List (String × List (String × JValue))) (nowIso sessionId : String)
    (sessionData : List (String × JValue)) :
    (storedRecordJs nowIso sessionId sessionData).map Prod.fst =
      ["id", "status", "email", "createdAt", "lastActiveAt", "userData", "authTokens"] ∧
    (∀ f ∈ serializedFields (storedRecordJs nowIso sessionId sessionData),
        f ∈ ["id", "status", "email", "createdAt", "lastActiveAt", "userData", "authTokens"]) ∧
    "driver" ∉ (storedRecordJs nowIso sessionId sessionData).map Prod.fst ∧
    (∀ v, storedRecordJs nowIso sessionId (("driver", v) :: sessionData) =
          storedRecordJs nowIso sessionId sessionData) ∧
    (∀ other, other ≠ sessionId →
        alGet (saveSessionJs file nowIso sessionId sessionData) other = alGet file other) ∧
    alGet (saveSessionJs file nowIso sessionId sessionData) sessionId =
      some (storedRecordJs nowIso sessionId sessionData) := by
  refine ⟨rfl, ?_, by simp [storedRecordJs], fun v => ?_, fun other hne => ?_, ?_⟩
  · intro f hf
    simp only [serializedFields] at hf
    rcases List.mem_map.mp hf with ⟨p, hp, rfl⟩
    have hmem : p ∈ storedRecordJs nowIso sessionId sessionData :=
      List.mem_of_mem_filter hp
    simp only [storedRecordJs, List.mem_cons, List.not_mem_nil, or_false] at hmem
    rcases hmem with rfl | rfl | rfl | rfl | rfl | rfl | rfl <;> simp
  · simp [storedRecordJs, getFieldJs, alGet]
  · exact alGet_alSet_ne file sessionId other _ hne
  · exact alGet_alSet_self file sessionId _

/-- Witness is not required (no hypotheses), but the concrete behavior at
a session object that carries a driver handle: the handle never reaches
the record. -/
theorem saveSession_driver_free_snapshot_witness :
    storedRecordJs "2024-01-01T00:00:00.000Z" "s1"
        [("driver", .driverHandle 7), ("status", .str "created"), ("createdAt", .num 0)] =
      storedRecordJs "2024-01-01T00:00:00.000Z" "s1"
        [("status", .str "created"), ("createdAt", .num 0)] :=
  (saveSession_driver_free_snapshot [] "2024-01-01T00:00:00.000Z" "s1"
    [("status", .str "created"), ("createdAt", .num 0)]).2.2.2.1 (.driverHandle 7)

/-! ## Claim C2 — the zero-threshold cleanup sweep -/

theorem mem_alDel {α : Type} (l : List (String × α)) (k : String) (p : String × α) :
    p ∈ alDel l k ↔ p ∈ l ∧ p.1 ≠ k := by
  induction l with
  | nil => simp [alDel]
  | cons hd t ih =>
    obtain ⟨k₀, v₀⟩ := hd
    by_cases hk : k₀ = k
    · simp only [alDel, if_pos hk, ih, List.mem_cons]
      constructor
      · rintro ⟨hp, hne⟩
        exact ⟨Or.inr hp, hne⟩
      · rintro ⟨hp | hp, hne⟩
        · subst hp
          exact absurd hk hne
        · exact ⟨hp, hne⟩
    · simp only [alDel, if_neg hk, List.mem_cons, ih]
      constructor
      · rintro (rfl | ⟨hp, hne⟩)
        · exact ⟨Or.inl rfl, hk⟩
        · exact ⟨Or.inr hp, hne⟩
      · rintro ⟨rfl | hp, hne⟩
        · exact Or.inl rfl
        · exact Or.inr ⟨hp, hne⟩

/-- Generalized behavior of the registry sweep of `cleanupOldSessions`
with both thresholds at zero: provided every pending entry is strictly
older than the clock, the fold closes everything it visits, so when
every key of the current registry is among the pending entries the
registry ends empty; the store only ever loses entries, and the clock is
untouched. -/
theorem cleanupFold_zero_empties (entries : List (String × ActiveSession))
    (c : Nat) (s : ServiceState)
    (hactive : ∀ p ∈ s.active, ∃ q ∈ entries, q.1 = p.1)
    (hage : ∀ q ∈ entries, s.now - q.2.createdAt > 0) :
    (entries.foldl (cleanupStep 0 0) (c, s)).2.active = [] ∧
    (∀ p ∈ (entries.foldl (cleanupStep 0 0) (c, s)).2.store, p ∈ s.store) ∧
    (entries.foldl (cleanupStep 0 0) (c, s)).2.now = s.now := by
  induction entries generalizing c s with
  | nil =>
    simp only [List.foldl]
    refine ⟨?_, fun p hp => hp, trivial⟩
    rw [List.eq_nil_iff_forall_not_mem]
    intro p hp
    obtain ⟨q, hq, _⟩ := hactive p hp
    exact List.not_mem_nil q hq
  | cons q entries ih =>
    have hq : s.now - q.2.createdAt > 0 := hage q (List.mem_cons_self q entries)
    have hstep : cleanupStep 0 0 (c, s) q =
        (c + 1, (closeSession s q.1 false).2) := by
      have hkeep1 : decide (s.now - q.2.createdAt < 0) = false :=
        decide_eq_false (by omega)
      have hkeep2 : decide (s.now < q.2.createdAt) = false :=
        decide_eq_false (by omega)
      simp [cleanupStep, hq, hkeep1, hkeep2]
    have hclose : (closeSession s q.1 false).2 =
        { s with active := alDel s.active q.1, store := alDel s.store q.1 } := by
      simp [closeSession, storeDeleteSession]
    rw [List.foldl_cons, hstep, hclose]
    have h := ih (c + 1) { s with active := alDel s.active q.1, store := alDel s.store q.1 }
      (by
        intro p hp
        have hmem := (mem_alDel s.active q.1 p).mp hp
        obtain ⟨q', hq', he⟩ := hactive p hmem.1
        rcases List.mem_cons.mp hq' with rfl | hq'
        · exact absurd (he ▸ hmem.2) (fun hcon => hcon rfl)
        · exact ⟨q', hq', he⟩)
      (fun q' hq' => hage q' (List.mem_cons_of_mem q hq'))
    refine ⟨h.1, fun p hp => ((mem_alDel s.store q.1 p).mp (h.2.1 p hp)).1, h.2.2⟩

/-- Counterexample to C2 as stated: a live session (and its persisted
record) created at the very instant of the sweep has age exactly `0`,
and the source compares ages with a strict `>`, so `cleanupOldSessions`
with both thresholds `0` closes nothing and deletes nothing — registry
and store both stay nonempty. -/
theorem cleanup_zero_age_counterexample :
    (cleanupOldSessions
        { active := [("s1", { id := "s1", driver := 0, createdAt := 100, status := "created" })]
          store := [("s1", { id := "s1", status := "created", email := none, createdAt := 100
                             lastActiveAt := 100, userData := none, authTokens := none })]
          nextDriver := 1, now := 100 } 0 0).2.active ≠ [] ∧
    (cleanupOldSessions
        { active := [("s1", { id := "s1", driver := 0, createdAt := 100, status := "created" })]
          store := [("s1", { id := "s1", status := "created", email := none, createdAt := 100
                             lastActiveAt := 100, userData := none, authTokens := none })]
          nextDriver := 1, now := 100 } 0 0).2.store ≠ [] := by
  refine ⟨by decide, by decide⟩

/-- Claim C2 (amended): `cleanupOldSessions` with `maxAge = 0` closes
every currently live session handle that is strictly older than the
sweep instant, and with `maxPersistentAge = 0` additionally deletes
every persisted record strictly older than the sweep instant; so when
every live handle and every persisted record predates the sweep, both
the registry and the store end empty.  (A record whose `createdAt`
equals the sweep time survives, since the source compares ages with a
strict `>`.) -/
theorem cleanupOldSessions_zero_empties (st : ServiceState)
    (hactive : ∀ p ∈ st.active, st.now - p.2.createdAt > 0)
    (hstore : ∀ p ∈ st.store, st.now - p.2.createdAt > 0) :
    (cleanupOldSessions st 0 0).2.active = [] ∧
    (cleanupOldSessions st 0 0).2.store = [] := by
  have h := cleanupFold_zero_empties st.active 0 st
    (fun p hp => ⟨p, hp, rfl⟩) hactive
  constructor
  · simp only [cleanupOldSessions]
    exact h.1
  · simp only [cleanupOldSessions, storeCleanupExpiredSessions]
    rw [List.filter_eq_nil_iff]
    intro p hp
    have hmem := h.2.1 p hp
    have hage := hstore p hmem
    rw [h.2.2]
    simp [hage]

/-- Witness for C2 (amended): one live session and one extra persisted
record, both a millisecond old, are fully swept. -/
theorem cleanupOldSessions_zero_empties_witness :
    (cleanupOldSessions
        { active := [("s1", { id := "s1", driver := 0, createdAt := 99, status := "created" })]
          store := [("s1", { id := "s1", status := "created", email := none, createdAt := 99
                             lastActiveAt := 99, userData := none, authTokens := none }),
                    ("s2", { id := "s2", status := "logged_in", email := none, createdAt := 0
                             lastActiveAt := 0, userData := none, authTokens := none })]
          nextDriver := 1, now := 100 } 0 0).2.active = [] ∧
    (cleanupOldSessions
        { active := [("s1", { id := "s1", driver := 0, createdAt := 99, status := "created" })]
          store := [("s1", { id := "s1", status := "created", email := none, createdAt := 99
                             lastActiveAt := 99, userData := none, authTokens := none }),
                    ("s2", { id := "s2", status := "logged_in", email := none, createdAt := 0
                             lastActiveAt := 0, userData := none, authTokens := none })]
          nextDriver := 1, now := 100 } 0 0).2.store = [] :=
  cleanupOldSessions_zero_empties _ (by decide) (by decide)

/-! ## Claim C8 — session-id generation and uniqueness -/

/-- Numeric value of a base-36 digit character. -/
def charVal (c : Char) : Nat :=
  if 97 ≤ c.toNat then c.toNat - 87 else c.toNat - 48

/-- Base-36 interpretation of a digit list, folding left from `v`. -/
def decodeB36 (v : Nat) (l : List Char) : Nat :=
  l.foldl (fun a c => a * 36 + charVal c) v

theorem charVal_base36Char : ∀ d, d < 36 → charVal (base36Char d) = d := by decide

theorem toBase36Go_append (fuel : Nat) :
    ∀ n acc, toBase36Go fuel n acc = toBase36Go fuel n [] ++ acc := by
  induction fuel with
  | zero => intro n acc; rfl
  | succ fuel ih =>
    intro n acc
    by_cases h : n < 36
    · simp [toBase36Go, h]
    · simp only [toBase36Go, if_neg h]
      rw [ih (n / 36) (base36Char (n % 36) :: acc),
          ih (n / 36) [base36Char (n % 36)]]
      simp

theorem decodeB36_append (v : Nat) (l₁ l₂ : List Char) :
    decodeB36 v (l₁ ++ l₂) = decodeB36 (decodeB36 v l₁) l₂ := by
  simp [decodeB36, List.foldl_append]

theorem decodeB36_toBase36Go (fuel : Nat) :
    ∀ n v, n ≤ fuel →
      decodeB36 v (toBase36Go fuel n []) =
        v * 36 ^ (toBase36Go fuel n []).length + n := by
  induction fuel with
  | zero =>
    intro n v hn
    have : n = 0 := Nat.le_zero.mp hn
    subst this
    simp [toBase36Go, decodeB36, charVal_base36Char 0 (by omega)]
  | succ fuel ih =>
    intro n v hn
    by_cases h : n < 36
    · simp [toBase36Go, h, decodeB36, charVal_base36Char n h]
    · have hdiv : n / 36 < n := Nat.div_lt_self (by omega) (by omega)
      have hfuel : n / 36 ≤ fuel := by omega
      have hmod : n % 36 < 36 := Nat.mod_lt n (by omega)
      simp only [toBase36Go, if_neg h]
      rw [toBase36Go_append fuel (n / 36) [base36Char (n % 36)],
          decodeB36_append]
      rw [ih (n / 36) v hfuel]
      simp only [decodeB36, List.foldl_cons, List.foldl_nil,
                 charVal_base36Char (n % 36) hmod]
      rw [List.length_append, List.length_cons, List.length_nil]
      ring_nf
      generalize v * 36 ^ (toBase36Go fuel (n / 36) []).length = w
      omega

theorem toBase36_injective (m n : Nat) (h : toBase36 m = toBase36 n) : m = n := by
  have hd : toBase36Go m m [] = toBase36Go n n [] := congrArg String.data h
  have hm := decodeB36_toBase36Go m m 0 (Nat.le_refl m)
  have hn := decodeB36_toBase36Go n n 0 (Nat.le_refl n)
  rw [hd] at hm
  rw [hm] at hn
  omega

/-- Counterexample to C8 as stated: `generateSessionId` is a pure
function of the `Math.random()` draw and the millisecond clock, with no
freshness check against the registry or the store — two `createSession`
calls that observe the same draw and the same millisecond produce the
identical id, and the second registration silently replaces the first
(one registry entry, not two). -/
theorem createSession_collision_counterexample :
    (createSession { active := [], store := [], nextDriver := 0, now := 1000 } "k3j9q").1.sessionId
      = (createSession
          (createSession { active := [], store := [], nextDriver := 0, now := 1000 } "k3j9q").2
          "k3j9q").1.sessionId ∧
    ((createSession
        (createSession { active := [], store := [], nextDriver := 0, now := 1000 } "k3j9q").2
        "k3j9q").2.active).length = 1 := by
  exact ⟨rfl, rfl⟩

/-- Claim C8 (amended): a generated session id is the concatenation of
the random draw's base-36 digits and the base-36 rendering of the
creation millisecond, so ids from two `createSession` calls are distinct
whenever the calls observe distinct milliseconds (the timestamp suffix
is an injective encoding) or distinct draws at the same millisecond; the
code performs no uniqueness check, so a collision of both draw and
millisecond reuses the id (see the counterexample), silently superseding
the prior registry entry.  `createSession` registers exactly the
generated id. -/
theorem generateSessionId_uniqueness (randPart r₁ r₂ : String) (t t₁ t₂ : Nat)
    (hne : t₁ ≠ t₂) (hr : r₁ ≠ r₂) :
    generateSessionId randPart t₁ ≠ generateSessionId randPart t₂ ∧
    generateSessionId r₁ t ≠ generateSessionId r₂ t ∧
    (∀ st rp, (createSession st rp).1.sessionId = generateSessionId rp st.now.toNat ∧
       alGet (createSession st rp).2.active (generateSessionId rp st.now.toNat) =
         some { id := generateSessionId rp st.now.toNat, driver := st.nextDriver
                createdAt := st.now, status := "created" }) := by
  refine ⟨fun hcon => ?_, fun hcon => ?_, fun st rp => ⟨rfl, ?_⟩⟩
  · apply hne
    apply toBase36_injective
    have : (generateSessionId randPart t₁).data = (generateSessionId randPart t₂).data :=
      congrArg String.data hcon
    simp only [generateSessionId, String.data_append] at this
    have := List.append_cancel_left this
    exact String.ext this
  · apply hr
    have : (generateSessionId r₁ t).data = (generateSessionId r₂ t).data :=
      congrArg String.data hcon
    simp only [generateSessionId, String.data_append] at this
    have := List.append_cancel_right this
    exact String.ext this
  · simp only [createSession]
    exact alGet_alSet_self _ _ _

/-- Witness for C8 (amended): distinct milliseconds or distinct draws
give distinct ids; `createSession` registers the generated id. -/
theorem generateSessionId_uniqueness_witness :
    generateSessionId "k3j9q" 1000 ≠ generateSessionId "k3j9q" 1001 ∧
    generateSessionId "k3j9q" 1000 ≠ generateSessionId "zz1aa" 1000 ∧
    (∀ st rp, (createSession st rp).1.sessionId = generateSessionId rp st.now.toNat ∧
       alGet (createSession st rp).2.active (generateSessionId rp st.now.toNat) =
         some { id := generateSessionId rp st.now.toNat, driver := st.nextDriver
                createdAt := st.now, status := "created" }) :=
  generateSessionId_uniqueness "k3j9q" "k3j9q" "zz1aa" 1000 1000 1001
    (by decide) (by decide)

end AutoPost
